import Mathlib

/-!
Verification of the Loan-eligibility repository (src/app.py, src/train_model.py).

The Predictor (app.py) is embedded as pure functions over an explicit
encoder map and an abstract random-forest classifier; the Streamlit
script run is a function from the load result, the user selections and
the button state to a script outcome.  The Trainer (train_model.py)
preprocessing (mode imputation, sentinel replacement, encoder fitting)
is embedded over lists of optional cell values.
-/

namespace LoanApp

/-- A pandas / Python cell value: either a string or an integer
(train_model.py holds both in one DataFrame). -/
inductive PyVal where
  | s (v : String)
  | i (v : Int)
deriving DecidableEq

/-- A fitted sklearn LabelEncoder: its classes_ array, the sorted distinct
labels seen at fit time.  transform maps a label to its index in classes_
and fails (ValueError) on an unseen label. -/
structure LabelEncoder where
  classes : List String
deriving DecidableEq

/-- LabelEncoder.transform on a single label: index in classes_, or
failure (none) when the label was not seen at fit time. -/
def LabelEncoder.transform (e : LabelEncoder) (v : String) : Option Nat :=
  e.classes.indexOf? v

/-- LabelEncoder.fit: classes_ is the sorted list of distinct observed labels. -/
def fitEncoder (labels : List String) : LabelEncoder :=
  ⟨labels.dedup.mergeSort (fun a b => decide (a ≤ b))⟩

/-- The label_encoders dict: column name to fitted encoder. -/
def EncoderSet := List (String × LabelEncoder)

/-- app.py line 20: the fixed feature_order list. -/
def feature_order : List String :=
  ["Gender", "Married", "Dependents", "Education", "Self_Employed",
   "ApplicantIncome", "CoapplicantIncome", "LoanAmount",
   "Loan_Amount_Term", "Credit_History", "Property_Area"]

/-- The sidebar form values of one submission (app.py lines 26-36).
Numeric inputs have min_value 0, hence Nat. -/
structure UserSelections where
  gender : String
  married : String
  dependents : String
  education : String
  self_employed : String
  property_area : String
  applicant_income : Nat
  coapplicant_income : Nat
  loan_amount : Nat
  loan_amount_term : Nat
  credit_history : Nat
deriving DecidableEq

/-- app.py lines 40-41: the zip of categorical column names with the
submitted values, as iterated by the encoding loop. -/
def catPairs (u : UserSelections) : List (String × String) :=
  [("Gender", u.gender), ("Married", u.married), ("Education", u.education),
   ("Self_Employed", u.self_employed), ("Property_Area", u.property_area)]

/-- app.py line 42: `label_encoders[col].transform([value])[0] if col in
label_encoders else 0`.  A missing encoder yields code 0; a present
encoder may fail on an unseen label (uncaught ValueError, modelled as
none). -/
def encodeField (encs : EncoderSet) (col value : String) : Option Nat :=
  match encs.lookup col with
  | none => some 0
  | some e => e.transform value

/-- The encoding for-loop of app.py lines 40-42, building the categorical
entries of the data dict in iteration order; any transform failure aborts
the whole script run. -/
def encodeLoop (encs : EncoderSet) : List (String × String) → Option (List (String × Int))
  | [] => some []
  | (col, v) :: rest =>
    match encodeField encs col v with
    | none => none
    | some code =>
      match encodeLoop encs rest with
      | none => none
      | some tail => some ((col, (code : Int)) :: tail)

/-- The categorical part of the data dict for one submission. -/
def encodeCats (encs : EncoderSet) (u : UserSelections) : Option (List (String × Int)) :=
  encodeLoop encs (catPairs u)

/-- The numeric value of a decimal digit character. -/
def charDigit (c : Char) : Option Nat :=
  if '0' ≤ c ∧ c ≤ '9' then some (c.toNat - 48) else none

/-- Decimal digit accumulation; fails on any non-digit character. -/
def digitsAux : List Char → Nat → Option Nat
  | [], acc => some acc
  | c :: cs, acc =>
    match charDigit c with
    | none => none
    | some d => digitsAux cs (acc * 10 + d)

/-- Python int() on an optional-minus-sign decimal string; any other
string raises ValueError, modelled as none. -/
def pyInt (s : String) : Option Int :=
  match s.data with
  | [] => none
  | '-' :: [] => none
  | '-' :: c :: cs => (digitsAux (c :: cs) 0).map (fun n => -(n : Int))
  | cs => (digitsAux cs 0).map (fun n => (n : Int))

/-- app.py line 45: `3 if dependents == "3+" else int(dependents)`;
int() on a non-numeric string raises, modelled as none. -/
def normDependents (s : String) : Option Int :=
  if s = "3+" then some 3 else pyInt s

/-- app.py lines 48-54: the numeric entries added to the data dict. -/
def numericData (u : UserSelections) : List (String × Int) :=
  [("ApplicantIncome", (u.applicant_income : Int)),
   ("CoapplicantIncome", (u.coapplicant_income : Int)),
   ("LoanAmount", (u.loan_amount : Int)),
   ("Loan_Amount_Term", (u.loan_amount_term : Int)),
   ("Credit_History", (u.credit_history : Int))]

/-- app.py line 56: `pd.DataFrame([data], columns=feature_order)` reorders
the dict entries into feature_order. -/
def assembleRow (data : List (String × Int)) : List (String × Int) :=
  feature_order.filterMap (fun c => (data.lookup c).map (fun v => (c, v)))

/-- app.py lines 25-56, user_input_features: encode the categorical
fields, normalize Dependents, add the numeric fields, and assemble the
single row in feature_order.  none models an exception escaping the
function (there is no handler around its call site at line 58). -/
def user_input_features (encs : EncoderSet) (u : UserSelections) :
    Option (List (String × Int)) :=
  match encodeCats encs u with
  | none => none
  | some cats =>
    match normDependents u.dependents with
    | none => none
    | some dep => some (assembleRow (cats ++ ("Dependents", dep) :: numericData u))

/-- The fitted RandomForestClassifier, abstracted as its trees; each tree
maps the ordered value vector to the class-1 (approved) fraction of its
reached leaf.  The class-0 fraction is 1 minus that. -/
structure RandomForest where
  trees : List (List Int → ℚ)

/-- Forest probability of the approved class: the average over trees of
the leaf class-1 fraction (sklearn predict_proba column 1). -/
def RandomForest.proba1 (m : RandomForest) (x : List Int) : ℚ :=
  (m.trees.map (fun t => t x)).sum / m.trees.length

/-- sklearn predict: classes_.take(argmax([p0, p1])); np.argmax returns
the first maximal index, so class 1 is predicted exactly when p1 exceeds
p0 = 1 - p1. -/
def RandomForest.predict (m : RandomForest) (x : List Int) : Nat :=
  if 1 - m.proba1 x < m.proba1 x then 1 else 0

/-- Advisory message of app.py line 87. -/
def goodCreditMsg : String := "Good credit history increases approval chances!"

/-- Advisory message of app.py line 89. -/
def poorCreditMsg : String := "Poor credit history might lower approval chances."

/-- Advisory message of app.py line 92. -/
def highIncomeMsg : String := "High applicant income is a positive factor!"

/-- Advisory message of app.py line 95. -/
def largeLoanMsg : String := "Large loan amounts may require additional scrutiny."

/-- app.py lines 86-95: the additional-insight messages written for the
submitted row, in order of appearance. -/
def advisoryFlags (row : List (String × Int)) : List String :=
  (if (row.lookup "Credit_History").getD 0 = 1 then [goodCreditMsg] else [poorCreditMsg])
    ++ (if 8000 < (row.lookup "ApplicantIncome").getD 0 then [highIncomeMsg] else [])
    ++ (if 300 < (row.lookup "LoanAmount").getD 0 then [largeLoanMsg] else [])

/-- What the prediction button handler displays for one submission. -/
structure PredictionResult where
  approved : Bool
  proba : ℚ
  flags : List String

/-- app.py lines 63-95: predict and predict_proba on the assembled row,
approval message when the predicted class is 1, probability scaled to
percent, and the advisory flags. -/
def predictHandler (m : RandomForest) (row : List (String × Int)) : PredictionResult :=
  let x := row.map Prod.snd
  { approved := m.predict x = 1
    proba := m.proba1 x * 100
    flags := advisoryFlags row }

/-- Outcome of one Streamlit script run of app.py. -/
inductive ScriptOutcome where
  | loadFailed (msg : String)
  | uncaughtException
  | rendered (result : Option PredictionResult) (errMsg : Option String)

/-- The prediction displayed by a script run, if any. -/
def ScriptOutcome.prediction : ScriptOutcome → Option PredictionResult
  | .rendered r _ => r
  | _ => none

/-- Whether the script run reached the rendering stage at all (in
particular, whether an in-app handler turned a failure into a rendered
message). -/
def ScriptOutcome.isRendered : ScriptOutcome → Bool
  | .rendered _ _ => true
  | _ => false

/-- One script run of app.py: lines 8-13 load the artifacts inside
try/except and st.stop() on failure; line 58 calls user_input_features
with no surrounding handler, so an encoding failure escapes as an
uncaught exception; lines 61-98 run the prediction inside try/except
only when the button was pressed. -/
def runScript (load : Except String (RandomForest × EncoderSet))
    (u : UserSelections) (buttonPressed : Bool) : ScriptOutcome :=
  match load with
  | .error e => .loadFailed ("Error loading model: " ++ e)
  | .ok (model, encs) =>
    match user_input_features encs u with
    | none => .uncaughtException
    | some row =>
      if buttonPressed then .rendered (some (predictHandler model row)) none
      else .rendered none none

/-! ## Trainer (train_model.py) -/

/-- train_model.py line 18: `df.replace({'3+': 3})` on one cell. -/
def replaceVal (v : PyVal) : PyVal :=
  if v = .s "3+" then .i 3 else v

/-- The non-missing values of a column. -/
def observed (col : List (Option PyVal)) : List PyVal :=
  col.filterMap id

/-- A most frequent element of a list (none only for the empty list). -/
def modeOf (l : List PyVal) : Option PyVal :=
  l.argmax (fun x => l.count x)

/-- SimpleImputer(strategy=most_frequent) on one column: replace every
missing entry by the most frequent observed value of that column. -/
def imputeColumn (col : List (Option PyVal)) : List (Option PyVal) :=
  match modeOf (observed col) with
  | none => col
  | some m => col.map (fun v => some (v.getD m))

/-- train_model.py line 15: impute every column of the frame independently. -/
def imputeDF (df : List (List (Option PyVal))) : List (List (Option PyVal)) :=
  df.map imputeColumn

/-- train_model.py line 22: the columns an encoder is fitted for. -/
def trainCatCols : List String :=
  ["Gender", "Married", "Education", "Self_Employed", "Property_Area", "Loan_Status"]

/-- train_model.py lines 21-25: the label_encoders dict, one fitted
encoder per column in trainCatCols, keyed by column name; df is accessed
by column name. -/
def fitLabelEncoders (df : String → List String) : EncoderSet :=
  trainCatCols.map (fun c => (c, fitEncoder (df c)))

/-- The shape of every assembled row: the eleven feature_order columns
with their values. -/
def litRow (g mr dep ed se ai ci la lt ch pa : Int) : List (String × Int) :=
  [("Gender", g), ("Married", mr), ("Dependents", dep), ("Education", ed),
   ("Self_Employed", se), ("ApplicantIncome", ai), ("CoapplicantIncome", ci),
   ("LoanAmount", la), ("Loan_Amount_Term", lt), ("Credit_History", ch),
   ("Property_Area", pa)]

/-! ## Example inputs -/

/-- The default sidebar selections of app.py. -/
def exUser : UserSelections :=
  { gender := "Male", married := "Yes", dependents := "2", education := "Graduate",
    self_employed := "No", property_area := "Urban", applicant_income := 5000,
    coapplicant_income := 2000, loan_amount := 100, loan_amount_term := 360,
    credit_history := 1 }

/-- The row assembled for exUser when no encoder is registered at all
(every categorical field falls back to code 0). -/
def exRow : List (String × Int) :=
  [("Gender", 0), ("Married", 0), ("Dependents", 2), ("Education", 0),
   ("Self_Employed", 0), ("ApplicantIncome", 5000), ("CoapplicantIncome", 2000),
   ("LoanAmount", 100), ("Loan_Amount_Term", 360), ("Credit_History", 1),
   ("Property_Area", 0)]

/-- An encoder set whose Gender encoder was fitted on "Male" only. -/
def maleOnlyEncs : EncoderSet := [("Gender", ⟨["Male"]⟩)]

/-- A submission selecting the label "Female", unseen by maleOnlyEncs. -/
def femaleUser : UserSelections := { exUser with gender := "Female" }

/-- A forest of one tree whose reached leaf holds an even class split:
predicted approval probability exactly one half. -/
def halfForest : RandomForest := ⟨[fun _ => 1/2]⟩

/-- A forest of two pure-leaf trees voting for opposite classes. -/
def exForest : RandomForest := ⟨[fun _ => 1, fun _ => 0]⟩

/-- A forest of a single tree with a pure approved leaf. -/
def oneForest : RandomForest := ⟨[fun _ => 1]⟩

/-- A training column with one missing cell among three observed labels. -/
def exCol : List (Option PyVal) :=
  [some (.s "Y"), none, some (.s "N"), some (.s "Y")]

/-- A one-column training frame. -/
def exDF : List (List (Option PyVal)) := [exCol]

/-! ## Helper lemmas -/

/-- Successful runs of user_input_features produce exactly the literal
row in feature_order, with each categorical code coming from encodeField
and Dependents from normDependents. -/
theorem uif_some_elim {encs : EncoderSet} {u : UserSelections}
    {row : List (String × Int)} (h : user_input_features encs u = some row) :
    ∃ g mr ed se pa dep,
      encodeField encs "Gender" u.gender = some g ∧
      encodeField encs "Married" u.married = some mr ∧
      encodeField encs "Education" u.education = some ed ∧
      encodeField encs "Self_Employed" u.self_employed = some se ∧
      encodeField encs "Property_Area" u.property_area = some pa ∧
      normDependents u.dependents = some dep ∧
      row = litRow g mr dep ed se u.applicant_income u.coapplicant_income
        u.loan_amount u.loan_amount_term u.credit_history pa := by
  rcases hg : encodeField encs "Gender" u.gender with _ | g <;>
    rcases hm : encodeField encs "Married" u.married with _ | mr <;>
      rcases he : encodeField encs "Education" u.education with _ | ed <;>
        rcases hs : encodeField encs "Self_Employed" u.self_employed with _ | se <;>
          rcases hp : encodeField encs "Property_Area" u.property_area with _ | pa <;>
            rcases hd : normDependents u.dependents with _ | dep <;>
              simp only [user_input_features, encodeCats, catPairs, encodeLoop,
                hg, hm, he, hs, hp, hd, reduceCtorEq, Option.some.injEq] at h
  exact ⟨g, mr, ed, se, pa, dep, rfl, rfl, rfl, rfl, rfl, rfl, h.symm⟩

/-- Column access on an assembled row: Gender. -/
theorem litRow_lookup_gender (g mr dep ed se ai ci la lt ch pa : Int) :
    (litRow g mr dep ed se ai ci la lt ch pa).lookup "Gender" = some g := rfl

/-- Column access on an assembled row: Married. -/
theorem litRow_lookup_married (g mr dep ed se ai ci la lt ch pa : Int) :
    (litRow g mr dep ed se ai ci la lt ch pa).lookup "Married" = some mr := rfl

/-- Column access on an assembled row: Education. -/
theorem litRow_lookup_education (g mr dep ed se ai ci la lt ch pa : Int) :
    (litRow g mr dep ed se ai ci la lt ch pa).lookup "Education" = some ed := rfl

/-- Column access on an assembled row: Self_Employed. -/
theorem litRow_lookup_selfemp (g mr dep ed se ai ci la lt ch pa : Int) :
    (litRow g mr dep ed se ai ci la lt ch pa).lookup "Self_Employed" = some se := rfl

/-- Column access on an assembled row: Property_Area. -/
theorem litRow_lookup_property (g mr dep ed se ai ci la lt ch pa : Int) :
    (litRow g mr dep ed se ai ci la lt ch pa).lookup "Property_Area" = some pa := rfl

/-- Column access on an assembled row: Credit_History. -/
theorem litRow_lookup_credit (g mr dep ed se ai ci la lt ch pa : Int) :
    (litRow g mr dep ed se ai ci la lt ch pa).lookup "Credit_History" = some ch := rfl

/-- Column access on an assembled row: ApplicantIncome. -/
theorem litRow_lookup_income (g mr dep ed se ai ci la lt ch pa : Int) :
    (litRow g mr dep ed se ai ci la lt ch pa).lookup "ApplicantIncome" = some ai := rfl

/-- Column access on an assembled row: LoanAmount. -/
theorem litRow_lookup_loan (g mr dep ed se ai ci la lt ch pa : Int) :
    (litRow g mr dep ed se ai ci la lt ch pa).lookup "LoanAmount" = some la := rfl

/-- The good-credit flag appears exactly when the Credit_History cell is 1. -/
theorem goodCredit_mem_flags (row : List (String × Int)) :
    goodCreditMsg ∈ advisoryFlags row ↔ (row.lookup "Credit_History").getD 0 = 1 := by
  unfold advisoryFlags
  split <;> split <;> split <;>
    simp_all [goodCreditMsg, poorCreditMsg, highIncomeMsg, largeLoanMsg]

/-- The poor-credit flag appears exactly when the Credit_History cell is not 1. -/
theorem poorCredit_mem_flags (row : List (String × Int)) :
    poorCreditMsg ∈ advisoryFlags row ↔ ¬(row.lookup "Credit_History").getD 0 = 1 := by
  unfold advisoryFlags
  split <;> split <;> split <;>
    simp_all [goodCreditMsg, poorCreditMsg, highIncomeMsg, largeLoanMsg]

/-- The high-income flag appears exactly when the ApplicantIncome cell
exceeds 8000. -/
theorem highIncome_mem_flags (row : List (String × Int)) :
    highIncomeMsg ∈ advisoryFlags row ↔ 8000 < (row.lookup "ApplicantIncome").getD 0 := by
  unfold advisoryFlags
  split <;> split <;> split <;>
    simp_all [goodCreditMsg, poorCreditMsg, highIncomeMsg, largeLoanMsg]

/-- The large-loan flag appears exactly when the LoanAmount cell exceeds 300. -/
theorem largeLoan_mem_flags (row : List (String × Int)) :
    largeLoanMsg ∈ advisoryFlags row ↔ 300 < (row.lookup "LoanAmount").getD 0 := by
  unfold advisoryFlags
  split <;> split <;> split <;>
    simp_all [goodCreditMsg, poorCreditMsg, highIncomeMsg, largeLoanMsg]

/-! ## Claim theorems -/

/-- C7: the dependents normalization maps "3+" to 3 and the remaining
domain values "0", "1", "2" to their parsed integers; the trainer-side
replacement maps the sentinel "3+" to 3, leaves 3 fixed, and is
idempotent on the sentinel. -/
theorem claim_C7_dependents_normalization :
    normDependents "3+" = some 3 ∧ normDependents "0" = some 0 ∧
    normDependents "1" = some 1 ∧ normDependents "2" = some 2 ∧
    replaceVal (.s "3+") = .i 3 ∧ replaceVal (.i 3) = .i 3 ∧
    replaceVal (replaceVal (.s "3+")) = replaceVal (.s "3+") := by
  refine ⟨?_, ?_, ?_, ?_, ?_, ?_, ?_⟩ <;> decide

/-- C9: when loading either artifact fails, the script run reports the
load error and stops; the outcome carries no prediction, for any
selections and any button state. -/
theorem claim_C9_load_failure_halts (e : String) (u : UserSelections) (b : Bool) :
    runScript (.error e) u b = .loadFailed ("Error loading model: " ++ e) ∧
    (runScript (.error e) u b).prediction = none :=
  ⟨rfl, rfl⟩

/-- C10: the trainer fits encoders for exactly Gender, Married,
Education, Self_Employed, Property_Area and Loan_Status (so never for
Dependents), and the predictor encoding loop iterates over exactly
Gender, Married, Education, Self_Employed, Property_Area, never
consulting an encoder for Dependents or any numeric field. -/
theorem claim_C10_encoder_set_keys (df : String → List String) (u : UserSelections) :
    (fitLabelEncoders df).map Prod.fst = trainCatCols ∧
    "Dependents" ∉ (fitLabelEncoders df).map Prod.fst ∧
    (catPairs u).map Prod.fst =
      ["Gender", "Married", "Education", "Self_Employed", "Property_Area"] ∧
    ∀ c ∈ ["Dependents", "ApplicantIncome", "CoapplicantIncome", "LoanAmount",
           "Loan_Amount_Term", "Credit_History"], c ∉ (catPairs u).map Prod.fst := by
  refine ⟨?_, ?_, rfl, ?_⟩
  · rfl
  · simp [fitLabelEncoders, trainCatCols]
  · intro c hc
    simp only [catPairs, List.map_cons, List.map_nil]
    fin_cases hc <;> simp

/-- C3: every successfully assembled row lists its columns in exactly
the feature_order schema order. -/
theorem claim_C3_row_schema_order (encs : EncoderSet) (u : UserSelections)
    (row : List (String × Int)) (h : user_input_features encs u = some row) :
    row.map Prod.fst = feature_order := by
  obtain ⟨g, mr, ed, se, pa, dep, -, -, -, -, -, -, hrow⟩ := uif_some_elim h
  subst hrow
  rfl

/-- Witness for C3 at the default selections and an empty encoder set. -/
theorem claim_C3_row_schema_order_witness :
    user_input_features [] exUser = some exRow ∧ exRow.map Prod.fst = feature_order :=
  ⟨by decide, claim_C3_row_schema_order [] exUser exRow (by decide)⟩

/-- C2: for each categorical field iterated by the encoding loop, a
missing encoder yields the default code 0 in the assembled row, and a
present encoder yields its code for the submitted label. -/
theorem claim_C2_missing_encoder_default (encs : EncoderSet) (u : UserSelections)
    (row : List (String × Int)) (h : user_input_features encs u = some row)
    (col value : String) (hmem : (col, value) ∈ catPairs u) :
    (encs.lookup col = none → row.lookup col = some 0) ∧
    ∀ e n, encs.lookup col = some e → e.transform value = some n →
      row.lookup col = some (n : Int) := by
  obtain ⟨g, mr, ed, se, pa, dep, hg, hm, he, hs, hp, -, hrow⟩ := uif_some_elim h
  subst hrow
  simp only [catPairs, List.mem_cons, List.not_mem_nil, or_false, Prod.mk.injEq] at hmem
  rcases hmem with ⟨hc, hv⟩ | ⟨hc, hv⟩ | ⟨hc, hv⟩ | ⟨hc, hv⟩ | ⟨hc, hv⟩ <;>
      subst hc <;> subst hv <;>
      refine ⟨fun hn => ?_, fun e n hsome htr => ?_⟩ <;>
    simp_all [encodeField, litRow_lookup_gender, litRow_lookup_married,
      litRow_lookup_education, litRow_lookup_selfemp, litRow_lookup_property]

/-- Witness for C2: with only a Gender encoder fitted on "Male", the
Married field falls back to code 0 and the Gender field gets the
encoder code 0 of the label "Male". -/
theorem claim_C2_missing_encoder_default_witness :
    exRow.lookup "Married" = some 0 ∧ exRow.lookup "Gender" = some 0 :=
  ⟨(claim_C2_missing_encoder_default maleOnlyEncs exUser exRow (by decide) "Married" "Yes"
      (by decide)).1 (by decide),
   (claim_C2_missing_encoder_default maleOnlyEncs exUser exRow (by decide) "Gender" "Male"
      (by decide)).2 ⟨["Male"]⟩ 0 (by decide) (by decide)⟩

/-- C5: on every submitted row with Credit_History in its form domain
{1, 0}, the good-credit flag appears iff the code is 1, the poor-credit
flag appears iff the code is 0, and the two never co-occur. -/
theorem claim_C5_credit_flags (m : RandomForest) (encs : EncoderSet) (u : UserSelections)
    (row : List (String × Int)) (h : user_input_features encs u = some row)
    (hc : u.credit_history = 0 ∨ u.credit_history = 1) :
    (goodCreditMsg ∈ (predictHandler m row).flags ↔ u.credit_history = 1) ∧
    (poorCreditMsg ∈ (predictHandler m row).flags ↔ u.credit_history = 0) ∧
    ¬(goodCreditMsg ∈ (predictHandler m row).flags ∧
      poorCreditMsg ∈ (predictHandler m row).flags) := by
  obtain ⟨g, mr, ed, se, pa, dep, -, -, -, -, -, -, hrow⟩ := uif_some_elim h
  subst hrow
  simp only [predictHandler, goodCredit_mem_flags, poorCredit_mem_flags,
    litRow_lookup_credit, Option.getD_some]
  rcases hc with hc | hc <;> rw [hc] <;> norm_num

/-- Witness for C5 at the default selections (Credit_History 1). -/
theorem claim_C5_credit_flags_witness :
    (goodCreditMsg ∈ (predictHandler oneForest exRow).flags ↔ exUser.credit_history = 1) ∧
    (poorCreditMsg ∈ (predictHandler oneForest exRow).flags ↔ exUser.credit_history = 0) ∧
    ¬(goodCreditMsg ∈ (predictHandler oneForest exRow).flags ∧
      poorCreditMsg ∈ (predictHandler oneForest exRow).flags) :=
  claim_C5_credit_flags oneForest [] exUser exRow (by decide) (Or.inr rfl)

/-- C6: the high-income flag appears iff ApplicantIncome exceeds 8000,
the large-loan flag appears iff LoanAmount exceeds 300, and the flag
set is a pure function of the row (equal rows give equal flags). -/
theorem claim_C6_income_loan_flags (m : RandomForest) (encs : EncoderSet)
    (u : UserSelections) (row : List (String × Int))
    (h : user_input_features encs u = some row) :
    (highIncomeMsg ∈ (predictHandler m row).flags ↔ 8000 < u.applicant_income) ∧
    (largeLoanMsg ∈ (predictHandler m row).flags ↔ 300 < u.loan_amount) ∧
    ∀ row2, row2 = row → advisoryFlags row2 = advisoryFlags row := by
  obtain ⟨g, mr, ed, se, pa, dep, -, -, -, -, -, -, hrow⟩ := uif_some_elim h
  subst hrow
  refine ⟨?_, ?_, fun _ h2 => h2 ▸ rfl⟩ <;>
    simp only [predictHandler, highIncome_mem_flags, largeLoan_mem_flags,
      litRow_lookup_income, litRow_lookup_loan, Option.getD_some] <;> omega

/-- Witness for C6 at the default selections (income 5000, loan 100). -/
theorem claim_C6_income_loan_flags_witness :
    (highIncomeMsg ∈ (predictHandler oneForest exRow).flags ↔ 8000 < exUser.applicant_income) ∧
    (largeLoanMsg ∈ (predictHandler oneForest exRow).flags ↔ 300 < exUser.loan_amount) :=
  ⟨(claim_C6_income_loan_flags oneForest [] exUser exRow (by decide)).1,
   (claim_C6_income_loan_flags oneForest [] exUser exRow (by decide)).2.1⟩

/-- C1 counterexample: with a Gender encoder fitted on "Male" only and
the submission "Female", the script run ends in an uncaught exception
from the encoding step, not in a rendered (caught and reported)
prediction-failure message: the claimed catch at the interactive
boundary does not happen. -/
theorem claim_C1_counterexample :
    runScript (.ok (halfForest, maleOnlyEncs)) femaleUser true = .uncaughtException ∧
    (runScript (.ok (halfForest, maleOnlyEncs)) femaleUser true).isRendered = false := by
  have h : user_input_features maleOnlyEncs femaleUser = none := by decide
  constructor <;> simp [runScript, h, ScriptOutcome.isRendered]

/-- C1 amended: an unencodable categorical value makes the encoding
step (which runs at line 58, outside the try/except of lines 62-98)
raise an exception that no application handler catches: the script run
aborts uncaught instead of rendering a prediction-failure message,
whatever the button state. -/
theorem claim_C1_amended_unencodable_uncaught (encs : EncoderSet) (u : UserSelections)
    (m : RandomForest) (b : Bool) (h : user_input_features encs u = none) :
    runScript (.ok (m, encs)) u b = .uncaughtException ∧
    (runScript (.ok (m, encs)) u b).isRendered = false := by
  constructor <;> simp [runScript, h, ScriptOutcome.isRendered]

/-- Witness for the amended C1 at the concrete unseen-label submission. -/
theorem claim_C1_amended_unencodable_uncaught_witness :
    runScript (.ok (halfForest, maleOnlyEncs)) femaleUser false = .uncaughtException ∧
    (runScript (.ok (halfForest, maleOnlyEncs)) femaleUser false).isRendered = false :=
  claim_C1_amended_unencodable_uncaught maleOnlyEncs femaleUser halfForest false (by decide)

/-- C4 counterexample: a forest whose (single) tree reaches an evenly
split leaf yields approval probability exactly 50, yet the predicted
class is 0 (np.argmax breaks the tie toward the first class), so the
decision is not "approved" although the probability is at least 50. -/
theorem claim_C4_counterexample :
    ¬(((predictHandler halfForest exRow).approved = true) ↔
      50 ≤ (predictHandler halfForest exRow).proba) := by
  have hp : (predictHandler halfForest exRow).proba = 50 := by
    norm_num [predictHandler, RandomForest.proba1, halfForest]
  have ha : (predictHandler halfForest exRow).approved = false := by
    norm_num [predictHandler, RandomForest.predict, RandomForest.proba1, halfForest]
  intro hiff
  rw [hp] at hiff
  rw [ha] at hiff
  norm_num at hiff

/-- C4 amended: for any nonempty forest whose trees emit leaf
probabilities in [0, 1], the displayed approval probability lies in
[0, 100], and the decision is "approved" iff that probability is
strictly greater than 50 (at exactly 50 the tie goes to class 0). -/
theorem claim_C4_amended_proba_decision (m : RandomForest) (row : List (String × Int))
    (hne : m.trees ≠ [])
    (hb : ∀ t ∈ m.trees, ∀ x : List Int, 0 ≤ t x ∧ t x ≤ 1) :
    (0 ≤ (predictHandler m row).proba ∧ (predictHandler m row).proba ≤ 100) ∧
    ((predictHandler m row).approved = true ↔ 50 < (predictHandler m row).proba) := by
  have hlen : 0 < (m.trees.length : ℚ) := by
    have h0 : m.trees.length ≠ 0 := fun h0 => hne (List.length_eq_zero.mp h0)
    exact_mod_cast Nat.pos_of_ne_zero h0
  have hsum0 : 0 ≤ (m.trees.map (fun t => t (row.map Prod.snd))).sum :=
    List.sum_nonneg (by
      intro q hq
      obtain ⟨t, ht, rfl⟩ := List.mem_map.mp hq
      exact (hb t ht _).1)
  have hsum1 : (m.trees.map (fun t => t (row.map Prod.snd))).sum ≤ (m.trees.length : ℚ) := by
    have h2 := List.sum_le_card_nsmul (m.trees.map (fun t => t (row.map Prod.snd))) 1 (by
      intro q hq
      obtain ⟨t, ht, rfl⟩ := List.mem_map.mp hq
      exact (hb t ht _).2)
    simpa [List.length_map, nsmul_eq_mul] using h2
  have hp0 : 0 ≤ m.proba1 (row.map Prod.snd) := div_nonneg hsum0 (le_of_lt hlen)
  have hp1 : m.proba1 (row.map Prod.snd) ≤ 1 := by
    rw [RandomForest.proba1, div_le_one hlen]
    exact hsum1
  simp only [predictHandler]
  refine ⟨⟨by nlinarith, by nlinarith⟩, ?_⟩
  rw [decide_eq_true_iff]
  unfold RandomForest.predict
  constructor
  · intro h1
    by_cases hlt : 1 - m.proba1 (row.map Prod.snd) < m.proba1 (row.map Prod.snd)
    · nlinarith
    · rw [if_neg hlt] at h1
      exact absurd h1 (by norm_num)
  · intro h50
    rw [if_pos (by nlinarith)]

/-- Witness for the amended C4: the single pure-tree forest on the
default row. -/
theorem claim_C4_amended_proba_decision_witness :
    (0 ≤ (predictHandler oneForest exRow).proba ∧
      (predictHandler oneForest exRow).proba ≤ 100) ∧
    ((predictHandler oneForest exRow).approved = true ↔
      50 < (predictHandler oneForest exRow).proba) := by
  refine claim_C4_amended_proba_decision oneForest exRow (by simp [oneForest]) ?_
  intro t ht x
  simp only [oneForest, List.mem_singleton] at ht
  subst ht
  norm_num

/-- C8: for every column of the frame whose most frequent observed
value is m, the imputed column replaces exactly the missing cells by m,
keeps every observed cell, contains no missing cell afterwards, m is an
observed value of maximal count, and the per-column imputation is what
the frame-level step applies to this column. -/
theorem claim_C8_imputation (df : List (List (Option PyVal)))
    (col : List (Option PyVal)) (hcol : col ∈ df) (m : PyVal)
    (hm : modeOf (observed col) = some m) :
    m ∈ observed col ∧
    (∀ x ∈ observed col, (observed col).count x ≤ (observed col).count m) ∧
    (∀ v ∈ imputeColumn col, v.isSome = true) ∧
    (∀ i : Nat, ∀ x, col[i]? = some (some x) →
      (imputeColumn col)[i]? = some (some x)) ∧
    imputeColumn col = col.map (fun v => some (v.getD m)) ∧
    imputeColumn col ∈ imputeDF df := by
  have hmem : m ∈ (observed col).argmax (fun x => (observed col).count x) :=
    Option.mem_def.mpr hm
  have heq : imputeColumn col = col.map (fun v => some (v.getD m)) := by
    unfold imputeColumn
    rw [hm]
  refine ⟨List.argmax_mem hmem, ?_, ?_, ?_, heq, ?_⟩
  · intro x hx
    exact Nat.le_of_not_lt (List.not_lt_of_mem_argmax hx hmem)
  · intro v hv
    rw [heq] at hv
    obtain ⟨w, hw, rfl⟩ := List.mem_map.mp hv
    rfl
  · intro i x hx
    rw [heq]
    simp [List.getElem?_map, hx]
  · rw [imputeDF]
    exact List.mem_map_of_mem _ hcol

/-- Witness for C8 on a one-column frame with a missing cell: the mode
is the majority label and the imputed column fills the hole with it. -/
theorem claim_C8_imputation_witness :
    modeOf (observed exCol) = some (.s "Y") ∧
    (PyVal.s "Y") ∈ observed exCol ∧
    imputeColumn exCol = [some (.s "Y"), some (.s "Y"), some (.s "N"), some (.s "Y")] ∧
    imputeColumn exCol ∈ imputeDF exDF := by
  obtain ⟨h1, h2, h3, h4, h5, h6⟩ :=
    claim_C8_imputation exDF exCol (by decide) (.s "Y") (by decide)
  exact ⟨by decide, h1, by decide, h6⟩

end LoanApp
